import Mathlib

/-!
Verification of the credential-acquisition subsystem of CrossWatch
(src/src-tauri/src/main.rs).

The embedding is shallow:
- JSON values (serde_json::Value) become the inductive `Json`; numbers are
  restricted to the integers the code inspects through as_i64.
- The serde-derived structs (PlexCfg, SimklCfg, ..., Config) become Lean
  structures; their derived Serialize / Deserialize impls become toJson /
  fromJson, with serde(default) semantics for missing fields and
  type-mismatch errors for present fields of the wrong shape.  Error
  message texts are abstracted.
- The filesystem becomes an association list from path strings to the JSON
  value stored in the file; fs::write of the raw string read from a file is
  modelled as storing the same JSON value.
- Network responses become explicit parameters: a status flag plus an
  optional JSON body (none models an unparsable body).
- The async Tauri commands become pure functions threading the filesystem
  state; randomness (rand::thread_rng) becomes an explicit stream of
  sampled indices.
-/

namespace CrossWatch

/-- JSON values as serde_json models them, with numbers restricted to the
integers the code reads via as_i64. -/
inductive Json where
  | null
  | bool (b : Bool)
  | num (n : Int)
  | str (s : String)
  | arr (elems : List Json)
  | obj (fields : List (String × Json))

/-- First-match lookup in the field list of a JSON object. -/
def jGet : List (String × Json) → String → Option Json
  | [], _ => none
  | (k, v) :: rest, key => if k = key then some v else jGet rest key

/-- serde_json::Value::get with a string index: field lookup on objects,
none on every other value. -/
def Json.get : Json → String → Option Json
  | .obj fields, key => jGet fields key
  | _, _ => none

/-- serde_json::Value::as_i64. -/
def Json.asI64 : Json → Option Int
  | .num n => some n
  | _ => none

/-- serde_json::Value::as_str. -/
def Json.asStr : Json → Option String
  | .str s => some s
  | _ => none

/-- Deserialization results (serde errors carry a message we abstract). -/
abbrev Parsed (α : Type) := Except String α

/-- serde field of type Option String with serde(default): missing or null
gives none, a string gives some, anything else is a type error. -/
def fieldOptStr : Option Json → Parsed (Option String)
  | none => .ok none
  | some .null => .ok none
  | some (.str s) => .ok (some s)
  | some _ => .error "expected string or null"

/-- serde field of type Option i64 with serde(default). -/
def fieldOptInt : Option Json → Parsed (Option Int)
  | none => .ok none
  | some .null => .ok none
  | some (.num n) => .ok (some n)
  | some _ => .error "expected integer or null"

/-- serde field of type String with serde(default): missing gives "". -/
def fieldStr : Option Json → Parsed String
  | none => .ok ""
  | some (.str s) => .ok s
  | some _ => .error "expected string"

/-- serde field of type bool with serde(default): missing gives false. -/
def fieldBool : Option Json → Parsed Bool
  | none => .ok false
  | some (.bool b) => .ok b
  | some _ => .error "expected bool"

/-- Element-wise deserialization of a Vec of strings. -/
def strListOfJson : List Json → Option (List String)
  | [] => some []
  | j :: rest =>
    match j.asStr, strListOfJson rest with
    | some s, some l => some (s :: l)
    | _, _ => none

/-- serde field of type Vec String with serde(default): missing gives []. -/
def fieldStrList : Option Json → Parsed (List String)
  | none => .ok []
  | some (.arr xs) =>
    match strListOfJson xs with
    | some l => .ok l
    | none => .error "expected string element"
  | some _ => .error "expected array"

/-- serde field holding a sub-struct with serde(default): missing gives the
default value, present values go through the sub-struct parser. -/
def fieldSub {α : Type} (dflt : α) (parse : Json → Parsed α) : Option Json → Parsed α
  | none => .ok dflt
  | some j => parse j

/-- serde field of type Option (sub-struct) with serde(default): missing or
null gives none. -/
def fieldOptSub {α : Type} (parse : Json → Parsed α) : Option Json → Parsed (Option α)
  | none => .ok none
  | some .null => .ok none
  | some j => (parse j).map some

/-- Serialization of Option String (None becomes null). -/
def optStrJson : Option String → Json
  | none => .null
  | some s => .str s

/-- Serialization of Option i64. -/
def optIntJson : Option Int → Json
  | none => .null
  | some n => .num n

/-- Serialization of an optional sub-struct. -/
def optSubJson {α : Type} (f : α → Json) : Option α → Json
  | none => .null
  | some x => f x

/-- struct PlexCfg (main.rs lines 11-14). -/
structure PlexCfg where
  account_token : Option String := none
deriving DecidableEq

/-- struct SimklCfg (main.rs lines 16-23). -/
structure SimklCfg where
  client_id : String := ""
  client_secret : String := ""
  access_token : Option String := none
  refresh_token : Option String := none
  token_expires_at : Option Int := none
deriving DecidableEq

/-- struct BidirectionalCfg (main.rs lines 25-30). -/
structure BidirectionalCfg where
  enabled : Bool := false
  mode : String := ""
  source_of_truth : String := ""
deriving DecidableEq

/-- struct ActivityCfg (main.rs lines 32-36). -/
structure ActivityCfg where
  use_activity : Bool := false
  types : List String := []
deriving DecidableEq

/-- struct SyncCfg (main.rs lines 38-44). -/
structure SyncCfg where
  enable_add : Bool := false
  enable_remove : Bool := false
  bidirectional : BidirectionalCfg := {}
  activity : ActivityCfg := {}
deriving DecidableEq

/-- struct RuntimeCfg (main.rs lines 46-49). -/
structure RuntimeCfg where
  debug : Bool := false
deriving DecidableEq

/-- struct Config (main.rs lines 51-57). -/
structure Config where
  plex : Option PlexCfg := none
  simkl : Option SimklCfg := none
  sync : Option SyncCfg := none
  runtime : Option RuntimeCfg := none
deriving DecidableEq

def PlexCfg.toJson (c : PlexCfg) : Json :=
  .obj [("account_token", optStrJson c.account_token)]

def PlexCfg.fromJson (j : Json) : Parsed PlexCfg :=
  match j with
  | .obj fs =>
    match fieldOptStr (jGet fs "account_token") with
    | .ok a => .ok ⟨a⟩
    | .error e => .error e
  | _ => .error "expected struct PlexCfg"

def SimklCfg.toJson (c : SimklCfg) : Json :=
  .obj [("client_id", .str c.client_id),
        ("client_secret", .str c.client_secret),
        ("access_token", optStrJson c.access_token),
        ("refresh_token", optStrJson c.refresh_token),
        ("token_expires_at", optIntJson c.token_expires_at)]

def SimklCfg.fromJson (j : Json) : Parsed SimklCfg :=
  match j with
  | .obj fs =>
    match fieldStr (jGet fs "client_id"), fieldStr (jGet fs "client_secret"),
          fieldOptStr (jGet fs "access_token"), fieldOptStr (jGet fs "refresh_token"),
          fieldOptInt (jGet fs "token_expires_at") with
    | .ok a, .ok b, .ok c, .ok d, .ok e => .ok ⟨a, b, c, d, e⟩
    | .error e, _, _, _, _ => .error e
    | _, .error e, _, _, _ => .error e
    | _, _, .error e, _, _ => .error e
    | _, _, _, .error e, _ => .error e
    | _, _, _, _, .error e => .error e
  | _ => .error "expected struct SimklCfg"

def BidirectionalCfg.toJson (c : BidirectionalCfg) : Json :=
  .obj [("enabled", .bool c.enabled),
        ("mode", .str c.mode),
        ("source_of_truth", .str c.source_of_truth)]

def BidirectionalCfg.fromJson (j : Json) : Parsed BidirectionalCfg :=
  match j with
  | .obj fs =>
    match fieldBool (jGet fs "enabled"), fieldStr (jGet fs "mode"),
          fieldStr (jGet fs "source_of_truth") with
    | .ok a, .ok b, .ok c => .ok ⟨a, b, c⟩
    | .error e, _, _ => .error e
    | _, .error e, _ => .error e
    | _, _, .error e => .error e
  | _ => .error "expected struct BidirectionalCfg"

def ActivityCfg.toJson (c : ActivityCfg) : Json :=
  .obj [("use_activity", .bool c.use_activity),
        ("types", .arr (c.types.map Json.str))]

def ActivityCfg.fromJson (j : Json) : Parsed ActivityCfg :=
  match j with
  | .obj fs =>
    match fieldBool (jGet fs "use_activity"), fieldStrList (jGet fs "types") with
    | .ok a, .ok b => .ok ⟨a, b⟩
    | .error e, _ => .error e
    | _, .error e => .error e
  | _ => .error "expected struct ActivityCfg"

def SyncCfg.toJson (c : SyncCfg) : Json :=
  .obj [("enable_add", .bool c.enable_add),
        ("enable_remove", .bool c.enable_remove),
        ("bidirectional", c.bidirectional.toJson),
        ("activity", c.activity.toJson)]

def SyncCfg.fromJson (j : Json) : Parsed SyncCfg :=
  match j with
  | .obj fs =>
    match fieldBool (jGet fs "enable_add"), fieldBool (jGet fs "enable_remove"),
          fieldSub {} BidirectionalCfg.fromJson (jGet fs "bidirectional"),
          fieldSub {} ActivityCfg.fromJson (jGet fs "activity") with
    | .ok a, .ok b, .ok c, .ok d => .ok ⟨a, b, c, d⟩
    | .error e, _, _, _ => .error e
    | _, .error e, _, _ => .error e
    | _, _, .error e, _ => .error e
    | _, _, _, .error e => .error e
  | _ => .error "expected struct SyncCfg"

def RuntimeCfg.toJson (c : RuntimeCfg) : Json :=
  .obj [("debug", .bool c.debug)]

def RuntimeCfg.fromJson (j : Json) : Parsed RuntimeCfg :=
  match j with
  | .obj fs =>
    match fieldBool (jGet fs "debug") with
    | .ok a => .ok ⟨a⟩
    | .error e => .error e
  | _ => .error "expected struct RuntimeCfg"

def Config.toJson (c : Config) : Json :=
  .obj [("plex", optSubJson PlexCfg.toJson c.plex),
        ("simkl", optSubJson SimklCfg.toJson c.simkl),
        ("sync", optSubJson SyncCfg.toJson c.sync),
        ("runtime", optSubJson RuntimeCfg.toJson c.runtime)]

def Config.fromJson (j : Json) : Parsed Config :=
  match j with
  | .obj fs =>
    match fieldOptSub PlexCfg.fromJson (jGet fs "plex"),
          fieldOptSub SimklCfg.fromJson (jGet fs "simkl"),
          fieldOptSub SyncCfg.fromJson (jGet fs "sync"),
          fieldOptSub RuntimeCfg.fromJson (jGet fs "runtime") with
    | .ok a, .ok b, .ok c, .ok d => .ok ⟨a, b, c, d⟩
    | .error e, _, _, _ => .error e
    | _, .error e, _, _ => .error e
    | _, _, .error e, _ => .error e
    | _, _, _, .error e => .error e
  | _ => .error "expected struct Config"

theorem strListOfJson_map_str (l : List String) :
    strListOfJson (l.map Json.str) = some l := by
  induction l with
  | nil => rfl
  | cons h t ih => simp [strListOfJson, Json.asStr, ih]

theorem plexCfg_roundtrip (c : PlexCfg) : PlexCfg.fromJson c.toJson = .ok c := by
  obtain ⟨a⟩ := c
  cases a <;> rfl

theorem simklCfg_roundtrip (c : SimklCfg) : SimklCfg.fromJson c.toJson = .ok c := by
  obtain ⟨a, b, x, y, z⟩ := c
  cases x <;> cases y <;> cases z <;> rfl

theorem bidirectionalCfg_roundtrip (c : BidirectionalCfg) :
    BidirectionalCfg.fromJson c.toJson = .ok c := by
  obtain ⟨a, b, d⟩ := c
  rfl

theorem activityCfg_roundtrip (c : ActivityCfg) :
    ActivityCfg.fromJson c.toJson = .ok c := by
  obtain ⟨a, t⟩ := c
  show ActivityCfg.fromJson (.obj [("use_activity", .bool a), ("types", .arr (t.map Json.str))]) = _
  rw [ActivityCfg.fromJson]
  simp [jGet, fieldBool, fieldStrList, strListOfJson_map_str]

theorem syncCfg_roundtrip (c : SyncCfg) : SyncCfg.fromJson c.toJson = .ok c := by
  obtain ⟨a, b, bd, ac⟩ := c
  rw [SyncCfg.toJson, SyncCfg.fromJson]
  simp [jGet, fieldBool, fieldSub, bidirectionalCfg_roundtrip, activityCfg_roundtrip]

theorem runtimeCfg_roundtrip (c : RuntimeCfg) : RuntimeCfg.fromJson c.toJson = .ok c := by
  obtain ⟨a⟩ := c
  rfl

theorem fieldOptSub_null {α : Type} (parse : Json → Parsed α) :
    fieldOptSub parse (some .null) = .ok none := rfl

theorem fieldOptSub_plex (c : PlexCfg) :
    fieldOptSub PlexCfg.fromJson (some c.toJson) = .ok (some c) := by
  have h : fieldOptSub PlexCfg.fromJson (some c.toJson)
      = (PlexCfg.fromJson c.toJson).map some := by
    obtain ⟨a⟩ := c
    rfl
  rw [h, plexCfg_roundtrip]
  rfl

theorem fieldOptSub_simkl (c : SimklCfg) :
    fieldOptSub SimklCfg.fromJson (some c.toJson) = .ok (some c) := by
  have h : fieldOptSub SimklCfg.fromJson (some c.toJson)
      = (SimklCfg.fromJson c.toJson).map some := by
    obtain ⟨a, b, x, y, z⟩ := c
    rfl
  rw [h, simklCfg_roundtrip]
  rfl

theorem fieldOptSub_sync (c : SyncCfg) :
    fieldOptSub SyncCfg.fromJson (some c.toJson) = .ok (some c) := by
  have h : fieldOptSub SyncCfg.fromJson (some c.toJson)
      = (SyncCfg.fromJson c.toJson).map some := by
    obtain ⟨a, b, bd, ac⟩ := c
    rfl
  rw [h, syncCfg_roundtrip]
  rfl

theorem fieldOptSub_runtime (c : RuntimeCfg) :
    fieldOptSub RuntimeCfg.fromJson (some c.toJson) = .ok (some c) := by
  have h : fieldOptSub RuntimeCfg.fromJson (some c.toJson)
      = (RuntimeCfg.fromJson c.toJson).map some := by
    obtain ⟨a⟩ := c
    rfl
  rw [h, runtimeCfg_roundtrip]
  rfl

theorem config_roundtrip (c : Config) : Config.fromJson c.toJson = .ok c := by
  obtain ⟨p, s, y, r⟩ := c
  rw [Config.toJson, Config.fromJson]
  cases p <;> cases s <;> cases y <;> cases r <;>
    simp only [jGet, if_pos, if_neg, String.reduceEq, reduceIte, optSubJson,
      fieldOptSub_null, fieldOptSub_plex, fieldOptSub_simkl, fieldOptSub_sync,
      fieldOptSub_runtime]

/-- The filesystem: a map from path strings to the JSON value a file holds.
fs::write of the raw string read from another file stores the same value. -/
abbrev FS := List (String × Json)

/-- fs read: first-match lookup (paths are unique in the states we build). -/
def fsLookup (fs : FS) (p : String) : Option Json := jGet fs p

/-- fs::write: replace any entry at the path. -/
def fsWrite (fs : FS) (p : String) (j : Json) : FS :=
  (p, j) :: fs.filter (fun e => e.1 != p)

/-- fs::remove_file. -/
def fsRemove (fs : FS) (p : String) : FS :=
  fs.filter (fun e => e.1 != p)

/-- to_string_lossy().contains test: character-list substring search. -/
def startsWithChars : List Char → List Char → Bool
  | [], _ => true
  | _ :: _, [] => false
  | a :: as, b :: bs => a == b && startsWithChars as bs

def containsChars (needle : List Char) : List Char → Bool
  | [] => needle.isEmpty
  | c :: rest => startsWithChars needle (c :: rest) || containsChars needle rest

/-- path.to_string_lossy().contains("src-tauri") (main.rs lines 122, 138). -/
def containsSrcTauri (p : String) : Bool :=
  containsChars "src-tauri".data p.data

/-- project_root_cfg() (main.rs lines 89-91). -/
def project_root_cfg : String := "config.json"

/-- legacy_cfg_candidates() (main.rs lines 93-99). -/
def legacy_cfg_candidates : List String :=
  ["config.json", "resources/config.json", "src-tauri/resources/config.json"]

/-- The legacy-candidate loop of read_cfg (main.rs lines 114-127): the first
existing candidate is parsed, its raw content is copied to the canonical
path and mirrored to the project-root path, and the candidate file is
removed only when its path contains "src-tauri". -/
def read_cfg_legacy (cfgPath : String) (fs : FS) : List String → Except String (Config × FS)
  | [] => .ok ({}, fs)
  | cand :: rest =>
    match fsLookup fs cand with
    | none => read_cfg_legacy cfgPath fs rest
    | some j =>
      match Config.fromJson j with
      | .error e => .error e
      | .ok cfg =>
        let fs1 := fsWrite (fsWrite fs cfgPath j) project_root_cfg j
        .ok (cfg, if containsSrcTauri cand then fsRemove fs1 cand else fs1)

/-- read_cfg (main.rs lines 107-129).  cfgPath stands for the result of
cfg_path(): the platform config directory joined with "config.json", or the
relative "config/config.json" fallback; it never equals a legacy candidate. -/
def read_cfg (cfgPath : String) (fs : FS) : Except String (Config × FS) :=
  match fsLookup fs cfgPath with
  | some j =>
    match Config.fromJson j with
    | .ok cfg => .ok (cfg, fs)
    | .error e => .error e
  | none => read_cfg_legacy cfgPath fs legacy_cfg_candidates

/-- write_cfg (main.rs lines 131-143): pretty-serialize, write to the
canonical path, mirror to the project root, then delete any existing
legacy candidate whose path contains "src-tauri". -/
def write_cfg (cfgPath : String) (fs : FS) (cfg : Config) : FS :=
  let j := Config.toJson cfg
  let fs2 := fsWrite (fsWrite fs cfgPath j) project_root_cfg j
  legacy_cfg_candidates.foldl
    (fun acc cand =>
      if containsSrcTauri cand && (fsLookup acc cand).isSome then fsRemove acc cand else acc)
    fs2

theorem jGet_filter_ne (fs : List (String × Json)) (p q : String) (h : q ≠ p) :
    jGet (fs.filter (fun e => e.1 != p)) q = jGet fs q := by
  induction fs with
  | nil => rfl
  | cons e rest ih =>
    obtain ⟨k, v⟩ := e
    by_cases hk : k = p
    · subst hk
      rw [List.filter_cons]
      simp only [bne_self_eq_false, ite_false]
      exact ih.trans (by rw [jGet, if_neg (fun hh : k = q => h hh.symm)])
    · rw [List.filter_cons]
      simp only [bne_iff_ne, ne_eq, hk, not_false_eq_true, ite_true]
      rw [jGet, jGet]
      by_cases hq : k = q
      · simp [hq]
      · simp [hq, ih]

theorem fsLookup_write_self (fs : FS) (p : String) (j : Json) :
    fsLookup (fsWrite fs p j) p = some j := by
  simp [fsLookup, fsWrite, jGet]

theorem fsLookup_write_ne (fs : FS) (p q : String) (j : Json) (h : q ≠ p) :
    fsLookup (fsWrite fs p j) q = fsLookup fs q := by
  unfold fsLookup fsWrite
  rw [jGet, if_neg (fun hh => h hh.symm)]
  exact jGet_filter_ne fs p q h

theorem fsLookup_remove_self (fs : FS) (p : String) :
    fsLookup (fsRemove fs p) p = none := by
  induction fs with
  | nil => rfl
  | cons e rest ih =>
    obtain ⟨k, v⟩ := e
    unfold fsRemove at *
    rw [List.filter_cons]
    by_cases hk : k = p
    · simp only [hk, bne_self_eq_false, ite_false]
      exact ih
    · simp only [bne_iff_ne, ne_eq, hk, not_false_eq_true, ite_true]
      rw [fsLookup, jGet, if_neg hk]
      exact ih

theorem fsLookup_remove_ne (fs : FS) (p q : String) (h : q ≠ p) :
    fsLookup (fsRemove fs p) q = fsLookup fs q := by
  unfold fsLookup fsRemove
  exact jGet_filter_ne fs p q h

/-- Numeric value of a decimal digit character. -/
def digitVal (c : Char) : Option Nat :=
  if c.isDigit then some (c.toNat - 48) else none

def twoDigits (a b : Char) : Option Nat := do
  let x ← digitVal a
  let y ← digitVal b
  pure (x * 10 + y)

/-- Days from 1970-01-01 to the given civil date (Howard Hinnant's
algorithm, as used by civil-date epoch conversions; agrees with chrono for
all non-negative years). -/
def daysFromCivil (y m d : Int) : Int :=
  let y2 := y - (if m ≤ 2 then 1 else 0)
  let era := (if 0 ≤ y2 then y2 else y2 - 399) / 400
  let yoe := y2 - era * 400
  let mm := m + (if 2 < m then (-3) else 9)
  let doy := (153 * mm + 2) / 5 + d - 1
  let doe := yoe * 365 + yoe / 4 - yoe / 100 + doy
  era * 146097 + doe - 719468

def isLeapYear (y : Nat) : Bool :=
  (y % 4 == 0 && y % 100 != 0) || y % 400 == 0

def daysInMonth (y m : Nat) : Nat :=
  if m == 2 then (if isLeapYear y then 29 else 28)
  else if m == 4 || m == 6 || m == 9 || m == 11 then 30
  else 31

/-- Drop a fractional-seconds part ".ddd" if present (at least one digit). -/
def skipFrac : List Char → Option (List Char)
  | '.' :: rest =>
    if (rest.takeWhile Char.isDigit).isEmpty then none
    else some (rest.dropWhile Char.isDigit)
  | cs => some cs

/-- Parse the RFC 3339 offset suffix into seconds east of UTC. -/
def parseOffset : List Char → Option Int
  | ['Z'] => some 0
  | ['z'] => some 0
  | ['+', h1, h2, ':', m1, m2] => do
    let h ← twoDigits h1 h2
    let m ← twoDigits m1 m2
    if h ≤ 23 ∧ m ≤ 59 then pure ((h * 3600 + m * 60 : Nat) : Int) else none
  | ['-', h1, h2, ':', m1, m2] => do
    let h ← twoDigits h1 h2
    let m ← twoDigits m1 m2
    if h ≤ 23 ∧ m ≤ 59 then pure (-((h * 3600 + m * 60 : Nat) : Int)) else none
  | _ => none

/-- chrono::DateTime::parse_from_rfc3339 followed by .timestamp(): parse
"YYYY-MM-DDTHH:MM:SS[.fff](Z|+HH:MM|-HH:MM)" into epoch seconds, failing on
any malformed or out-of-range input. -/
def parseRFC3339 (s : String) : Option Int :=
  match s.data with
  | y1 :: y2 :: y3 :: y4 :: c1 :: mo1 :: mo2 :: c2 :: d1 :: d2 :: t :: h1 :: h2 :: c3 ::
      mi1 :: mi2 :: c4 :: s1 :: s2 :: rest =>
    if c1 = '-' ∧ c2 = '-' ∧ (t = 'T' ∨ t = 't') ∧ c3 = ':' ∧ c4 = ':' then
      match twoDigits y1 y2, twoDigits y3 y4, twoDigits mo1 mo2, twoDigits d1 d2,
            twoDigits h1 h2, twoDigits mi1 mi2, twoDigits s1 s2, skipFrac rest with
      | some yh, some yl, some mo, some d, some h, some mi, some ss, some offChars =>
        match parseOffset offChars with
        | some off =>
          let y := yh * 100 + yl
          if 1 ≤ mo ∧ mo ≤ 12 ∧ 1 ≤ d ∧ d ≤ daysInMonth y mo ∧ h ≤ 23 ∧ mi ≤ 59 ∧ ss ≤ 59 then
            some (daysFromCivil y mo d * 86400 + ((h * 3600 + mi * 60 + ss : Nat) : Int) - off)
          else none
        | none => none
      | _, _, _, _, _, _, _, _ => none
    else none
  | _ => none

/-- The character set of rand's Alphanumeric distribution. -/
def alphanumericChars : List Char :=
  "ABCDEFGHIJKLMNOPQRSTUVWXYZabcdefghijklmnopqrstuvwxyz0123456789".data

/-- thread_rng().sample_iter(&Alphanumeric).take(12).map(char::from).collect()
(main.rs line 227): the RNG is modelled as a stream of sampled indices into
the 62-character Alphanumeric alphabet. -/
def genClientId (rand : Nat → Nat) : String :=
  String.mk ((List.range 12).map (fun i => alphanumericChars.getD (rand i % 62) 'A'))

/-- HeaderValue::from_str acceptance: every byte is visible (or tab). -/
def isValidHeaderValue (s : String) : Bool :=
  s.data.all (fun c => c == '\t' || (decide (32 ≤ c.toNat) && c.toNat != 127))

/-- First-match lookup in a header list. -/
def headerLookup : List (String × String) → String → Option String
  | [], _ => none
  | (k, v) :: rest, key => if k = key then some v else headerLookup rest key

/-- plex_headers (main.rs lines 199-210); an invalid client identifier falls
back to the static value "crosswatch". -/
def plex_headers (client_id : String) : List (String × String) :=
  [("Accept", "application/json"),
   ("User-Agent", "CrossWatch/0.3.0 (+https://example.local)"),
   ("X-Plex-Product", "CrossWatch"),
   ("X-Plex-Version", "0.3.0"),
   ("X-Plex-Client-Identifier", if isValidHeaderValue client_id then client_id else "crosswatch"),
   ("X-Plex-Device", "Desktop"),
   ("X-Plex-Device-Name", "CrossWatch"),
   ("X-Plex-Platform", "Tauri")]

/-- unwrap_pin (main.rs lines 212-214). -/
def unwrap_pin (v : Json) : Json :=
  match v.get "pin" with
  | some pin => pin
  | none => v

/-- struct PlexPinCreateOut (main.rs lines 216-222). -/
structure PlexPinCreateOut where
  id : Int
  code : String
  expires_at : Int
  client_id : String
deriving DecidableEq

/-- cmd_plex_create_pin (main.rs lines 224-240).  The network is modelled by
the HTTP status flag and the optional JSON body of the response (none when
the body is not valid JSON); the RNG by the sampled-index stream. -/
def cmd_plex_create_pin (rand : Nat → Nat) (statusOk : Bool) (body : Option Json) :
    Except String PlexPinCreateOut :=
  let client_id := genClientId rand
  if statusOk then
    match body with
    | none => .error "response body is not JSON"
    | some raw =>
      let pin := unwrap_pin raw
      match (pin.get "id").bind Json.asI64 with
      | none => .error "Missing id"
      | some id =>
        let code := ((pin.get "code").bind Json.asStr).getD ""
        let exp_iso := ((pin.get "expires_at").bind Json.asStr).getD ""
        let exp_epoch := (parseRFC3339 exp_iso).getD 0
        .ok ⟨id, code, exp_epoch, client_id⟩
  else .error "Plex PIN create failed"

/-- cmd_plex_poll_pin (main.rs lines 242-256).  The filesystem state is
threaded explicitly; the function body contains no read or write of the
credential document, which the state passing makes visible. -/
def cmd_plex_poll_pin (fs : FS) (statusOk : Bool) (body : Option Json) :
    Except String (String × FS) :=
  if statusOk then
    match body with
    | none => .error "response body is not JSON"
    | some raw =>
      let pin := unwrap_pin raw
      let token :=
        match (pin.get "auth_token").bind Json.asStr with
        | some t => t
        | none =>
          match (pin.get "authToken").bind Json.asStr with
          | some t => t
          | none => ""
      .ok (token, fs)
  else .error "Plex PIN poll failed"

/-- struct TokResp (main.rs line 295). -/
structure TokResp where
  access_token : String
  refresh_token : String
  expires_in : Int
deriving DecidableEq

/-- Outcome of the token-endpoint POST inside the listener: transport
failure, non-success status, unparsable body, or a parsed TokResp. -/
inductive ExchangeOutcome where
  | reqErr
  | badStatus (st : String)
  | parseFail
  | ok (tr : TokResp)

/-- One inbound HTTP request to the loopback listener: whether
Url::parse accepted it, plus its path and query pairs. -/
structure Request where
  parseOk : Bool
  path : String
  query : List (String × String)
deriving DecidableEq

/-- u.query_pairs().find(|(k, _)| k == "code") (main.rs line 273). -/
def extractCode (rq : Request) : Option String :=
  (rq.query.find? (fun p => p.1 == "code")).map (fun p => p.2)

/-- What the background listener task leaves behind: the filesystem, the
one simkl_linked event it emits (ok flag and error payload), and the
authorization code it used for the exchange, if any. -/
structure ListenerOutcome where
  fs : FS
  emitOk : Bool
  emitErr : Option String
  usedCode : Option String

/-- The body of the background task for one received request
(main.rs lines 266-345). -/
def handle_request (cfgPath : String) (now : Int) (exch : ExchangeOutcome) (fs : FS)
    (rq : Request) : ListenerOutcome :=
  if rq.parseOk then
    match extractCode rq with
    | none => ⟨fs, false, some "No code in callback", none⟩
    | some code =>
      match read_cfg cfgPath fs with
      | .error e => ⟨fs, false, some ("Config read failed: " ++ e), some code⟩
      | .ok (cfg, fs1) =>
        match cfg.simkl with
        | none => ⟨fs1, false, some "SIMKL not configured", some code⟩
        | some sim =>
          if sim.client_id = "" ∨ sim.client_secret = "" then
            ⟨fs1, false, some "SIMKL client_id/secret missing", some code⟩
          else
            match exch with
            | .reqErr => ⟨fs1, false, some "SIMKL token request failed", some code⟩
            | .badStatus st => ⟨fs1, false, some ("SIMKL token exchange failed: " ++ st), some code⟩
            | .parseFail => ⟨fs1, false, some "SIMKL token parse failed", some code⟩
            | .ok tr =>
              let second :=
                match read_cfg cfgPath fs1 with
                | .ok pr => pr
                | .error _ => ({}, fs1)
              let s0 := second.1.simkl.getD {}
              let s1 : SimklCfg :=
                { s0 with access_token := some tr.access_token,
                          refresh_token := some tr.refresh_token,
                          token_expires_at := some (now + tr.expires_in) }
              ⟨write_cfg cfgPath second.2 { second.1 with simkl := some s1 }, true, none, some code⟩
  else ⟨fs, false, some "Callback parse failed", none⟩

/-- cmd_simkl_start_listener (main.rs lines 260-352).  The spawned task
performs exactly one server.recv(): the empty request list models a failed
recv, and with a non-empty list only the first request is ever handled.
now is the clock value chrono::Utc::now().timestamp() reads at persist
time; exch the outcome of the token exchange. -/
def cmd_simkl_start_listener (cfgPath : String) (now : Int) (exch : ExchangeOutcome)
    (fs : FS) (requests : List Request) : ListenerOutcome :=
  match requests with
  | [] => ⟨fs, false, some "Listener recv failed", none⟩
  | rq :: _ => handle_request cfgPath now exch fs rq

/-- struct SimklTokenResp (main.rs lines 383-390). -/
structure SimklTokenResp where
  access_token : Option String := none
  refresh_token : Option String := none
  expires_in : Option Int := none
  token_type : Option String := none
  result : Option String := none
deriving DecidableEq

def SimklTokenResp.fromJson (j : Json) : Parsed SimklTokenResp :=
  match j with
  | .obj fs =>
    match fieldOptStr (jGet fs "access_token"), fieldOptStr (jGet fs "refresh_token"),
          fieldOptInt (jGet fs "expires_in"), fieldOptStr (jGet fs "token_type"),
          fieldOptStr (jGet fs "result") with
    | .ok a, .ok b, .ok c, .ok d, .ok e => .ok ⟨a, b, c, d, e⟩
    | .error e, _, _, _, _ => .error e
    | _, .error e, _, _, _ => .error e
    | _, _, .error e, _, _ => .error e
    | _, _, _, .error e, _ => .error e
    | _, _, _, _, .error e => .error e
  | _ => .error "expected struct SimklTokenResp"

/-- cmd_simkl_poll_pin (main.rs lines 410-419): one GET, then
serde_json::from_str(&text).unwrap_or_default().  The body is none when the
response text is not valid JSON.  The filesystem state is threaded to make
visible that the command never touches the credential document. -/
def cmd_simkl_poll_pin (fs : FS) (body : Option Json) : FS × SimklTokenResp :=
  (fs,
    match body with
    | none => {}
    | some j =>
      match SimklTokenResp.fromJson j with
      | .ok t => t
      | .error _ => {})

theorem containsSrcTauri_root : containsSrcTauri "config.json" = false := rfl

theorem containsSrcTauri_res : containsSrcTauri "resources/config.json" = false := rfl

theorem containsSrcTauri_tauri : containsSrcTauri "src-tauri/resources/config.json" = true := rfl

/-- The legacy-deletion loop of write_cfg never disturbs a path it is not
allowed to delete. -/
theorem fsLookup_removeLegacy (l : List String) (acc : FS) (q : String)
    (hq : ∀ c ∈ l, containsSrcTauri c = true → q ≠ c) :
    fsLookup (l.foldl
        (fun a c => if containsSrcTauri c && (fsLookup a c).isSome then fsRemove a c else a)
        acc) q
      = fsLookup acc q := by
  induction l generalizing acc with
  | nil => rfl
  | cons c rest ih =>
    rw [List.foldl_cons]
    have hrest : ∀ d ∈ rest, containsSrcTauri d = true → q ≠ d :=
      fun d hd => hq d (List.mem_cons_of_mem _ hd)
    by_cases hc : (containsSrcTauri c && (fsLookup acc c).isSome) = true
    · have hparts := hc
      rw [Bool.and_eq_true] at hparts
      have hqc : q ≠ c := hq c (List.mem_cons_self _ _) hparts.1
      rw [if_pos hc, ih _ hrest, fsLookup_remove_ne _ _ _ hqc]
    · rw [if_neg hc, ih _ hrest]

/-- After write_cfg, the canonical path holds the serialized document. -/
theorem fsLookup_write_cfg_self (cfgPath : String) (fs : FS) (cfg : Config)
    (h : cfgPath ≠ "src-tauri/resources/config.json") :
    fsLookup (write_cfg cfgPath fs cfg) cfgPath = some (Config.toJson cfg) := by
  rw [write_cfg]
  simp only [project_root_cfg]
  rw [fsLookup_removeLegacy]
  · by_cases hr : cfgPath = "config.json"
    · rw [hr, fsLookup_write_self]
    · rw [fsLookup_write_ne _ _ _ _ hr, fsLookup_write_self]
  · intro c hc
    fin_cases hc
    · intro ht
      exact absurd ht (by decide)
    · intro ht
      exact absurd ht (by decide)
    · intro _
      exact h

/-- Loading right after saving returns the saved document: the shared core
of the round-trip law. -/
theorem read_cfg_after_write_cfg (cfgPath : String) (fs : FS) (cfg : Config)
    (h : cfgPath ≠ "src-tauri/resources/config.json") :
    read_cfg cfgPath (write_cfg cfgPath fs cfg) = .ok (cfg, write_cfg cfgPath fs cfg) := by
  rw [read_cfg, fsLookup_write_cfg_self cfgPath fs cfg h]
  simp only [config_roundtrip]

/-- If the legacy loop of read_cfg succeeds, either it changed nothing or it
left a parseable copy at the canonical path. -/
theorem read_cfg_legacy_cases (cfgPath : String) (fs : FS) (cands : List String)
    (cfg : Config) (fs1 : FS)
    (h0 : fsLookup fs cfgPath = none)
    (h : read_cfg_legacy cfgPath fs cands = .ok (cfg, fs1)) :
    fs1 = fs ∨ ∃ j, fsLookup fs1 cfgPath = some j ∧ Config.fromJson j = .ok cfg := by
  induction cands with
  | nil =>
    rw [read_cfg_legacy] at h
    left
    simp only [Except.ok.injEq, Prod.mk.injEq] at h
    exact h.2.symm
  | cons c rest ih =>
    rw [read_cfg_legacy] at h
    split at h
    · exact ih h
    · rename_i j hl
      split at h
      · exact absurd h (by simp)
      · rename_i cfg2 hp
        simp only [Except.ok.injEq, Prod.mk.injEq] at h
        obtain ⟨hcfg, hfs⟩ := h
        right
        refine ⟨j, ?_, by rw [hp, hcfg]⟩
        have hcq : cfgPath ≠ c := by
          intro hh
          rw [hh, hl] at h0
          exact absurd h0 (by simp)
        have hinner : fsLookup (fsWrite (fsWrite fs cfgPath j) project_root_cfg j) cfgPath
            = some j := by
          by_cases hr : cfgPath = project_root_cfg
          · rw [hr, fsLookup_write_self]
          · rw [fsLookup_write_ne _ _ _ _ hr, fsLookup_write_self]
        rw [← hfs]
        by_cases ht : containsSrcTauri c
        · rw [if_pos ht, fsLookup_remove_ne _ _ _ hcq]
          exact hinner
        · rw [if_neg ht]
          exact hinner

/-- A second read_cfg right after a successful one returns the same document
and leaves the filesystem unchanged. -/
theorem read_cfg_idem (cfgPath : String) (fs fs1 : FS) (cfg : Config)
    (h : read_cfg cfgPath fs = .ok (cfg, fs1)) :
    read_cfg cfgPath fs1 = .ok (cfg, fs1) := by
  rw [read_cfg] at h
  split at h
  · rename_i j hl
    split at h
    · rename_i cfg2 hp
      simp only [Except.ok.injEq, Prod.mk.injEq] at h
      obtain ⟨hcfg, hfs⟩ := h
      rw [← hfs, read_cfg, hl]
      simp only [hp, hcfg]
    · exact absurd h (by simp)
  · rename_i hl
    rcases read_cfg_legacy_cases cfgPath fs legacy_cfg_candidates cfg fs1 hl h
        with hsame | ⟨j, hj, hpj⟩
    · rw [hsame, read_cfg, hl]
      rw [hsame] at h
      exact h
    · rw [read_cfg, hj]
      simp only [hpj]

theorem alnum_getD_mem (n : Nat) (h : n < 62) :
    alphanumericChars.getD n 'A' ∈ alphanumericChars := by
  revert h
  revert n
  decide

theorem alnum_valid (n : Nat) (h : n < 62) :
    ((alphanumericChars.getD n 'A') == '\t'
      || (decide (32 ≤ (alphanumericChars.getD n 'A').toNat)
          && (alphanumericChars.getD n 'A').toNat != 127)) = true := by
  revert h
  revert n
  decide

/-- Claim C1 counterexample: a poll whose response carries auth_token
"tok-1" returns success with the filesystem unchanged, and the credential
document loaded afterwards has no Plex section at all, contradicting the
claim that the token is persisted into serviceA.accountToken before the
poll returns. -/
theorem plex_poll_persistence_cex :
    cmd_plex_poll_pin [] true (some (.obj [("auth_token", .str "tok-1")]))
      = .ok ("tok-1", [])
    ∧ (read_cfg "config/config.json" []).map (fun r => r.1.plex) = .ok none :=
  ⟨rfl, rfl⟩

/-- Claim C1 (amended): a successful cmd_plex_poll_pin returns the token it
discovered to the caller and performs no write at all to the credential
document: the filesystem it returns is the one it was given. -/
theorem plex_poll_does_not_persist (fs : FS) (statusOk : Bool) (body : Option Json)
    (out : String × FS) (h : cmd_plex_poll_pin fs statusOk body = .ok out) :
    out.2 = fs := by
  obtain ⟨a, b⟩ := out
  cases statusOk with
  | false => exact absurd h (by simp [cmd_plex_poll_pin])
  | true =>
    cases body with
    | none => exact absurd h (by simp [cmd_plex_poll_pin])
    | some raw =>
      simp only [cmd_plex_poll_pin, if_true, Except.ok.injEq, Prod.mk.injEq] at h
      exact h.2.symm

/-- Witness for plex_poll_does_not_persist at a concrete poll response. -/
theorem plex_poll_does_not_persist_witness :
    (("tok-1", ([] : FS)) : String × FS).2 = ([] : FS) :=
  plex_poll_does_not_persist [] true (some (.obj [("auth_token", .str "tok-1")]))
    ("tok-1", []) rfl

/-- Claim C2 counterexample: with a first request lacking a code parameter
and a second request carrying code=abc123, the listener's single recv
handles only the first request: it terminates with a failure event and
never uses "abc123", contradicting the claim that it keeps waiting. -/
theorem listener_keeps_waiting_cex :
    cmd_simkl_start_listener "config/config.json" 0 .reqErr []
        [⟨true, "/callback", []⟩, ⟨true, "/callback", [("code", "abc123")]⟩]
      = ⟨[], false, some "No code in callback", none⟩ := rfl

/-- Claim C2 (amended): the listener is one-shot — its outcome depends only
on the first inbound request, and a parseable first request without a code
parameter terminates it with the "No code in callback" failure event, no
code ever being extracted; later requests are never received. -/
theorem listener_one_shot (cfgPath : String) (now : Int) (exch : ExchangeOutcome)
    (fs : FS) (rq : Request) (rest : List Request) :
    cmd_simkl_start_listener cfgPath now exch fs (rq :: rest)
      = cmd_simkl_start_listener cfgPath now exch fs [rq]
    ∧ (rq.parseOk = true → extractCode rq = none →
        cmd_simkl_start_listener cfgPath now exch fs (rq :: rest)
          = ⟨fs, false, some "No code in callback", none⟩) := by
  constructor
  · rfl
  · intro hp hc
    show handle_request cfgPath now exch fs rq = _
    simp [handle_request, hp, hc]

/-- Witness for listener_one_shot: a request to a different path without a
code terminates the listener even though another request with a code is
queued behind it. -/
theorem listener_one_shot_witness :
    cmd_simkl_start_listener "config/config.json" 0 .reqErr []
        [⟨true, "/other", []⟩, ⟨true, "/callback", [("code", "x")]⟩]
      = ⟨[], false, some "No code in callback", none⟩ :=
  (listener_one_shot "config/config.json" 0 .reqErr [] ⟨true, "/other", []⟩
    [⟨true, "/callback", [("code", "x")]⟩]).2 rfl rfl

/-- Claim C6 counterexample: a success response whose body is exactly
\x7b"id": 42\x7d (no code, no expiry) yields a success result with the code
defaulted to "" and the expiry defaulted to 0, contradicting the claim that
a missing required field always produces an error. -/
theorem create_pin_defaults_cex :
    cmd_plex_create_pin (fun _ => 0) true (some (.obj [("id", .num 42)]))
      = .ok ⟨42, "", 0, "AAAAAAAAAAAA"⟩ := rfl

/-- Claim C6 (amended): cmd_plex_create_pin fails exactly when the HTTP
status is non-success, the body is not JSON, or the (possibly pin-wrapped)
body lacks an integer id; a missing code or expiry field does not fail but
is defaulted to "" and 0 respectively in the success result. -/
theorem create_pin_error_conditions (rand : Nat → Nat) (statusOk : Bool) (body : Option Json) :
    ((∃ out, cmd_plex_create_pin rand statusOk body = .ok out) ↔
      statusOk = true
        ∧ ∃ j, body = some j ∧ (((unwrap_pin j).get "id").bind Json.asI64).isSome = true)
    ∧ (∀ j id, statusOk = true → body = some j →
        ((unwrap_pin j).get "id").bind Json.asI64 = some id →
        (unwrap_pin j).get "code" = none → (unwrap_pin j).get "expires_at" = none →
        cmd_plex_create_pin rand statusOk body = .ok ⟨id, "", 0, genClientId rand⟩) := by
  constructor
  · constructor
    · rintro ⟨out, hout⟩
      cases statusOk with
      | false => exact absurd hout (by simp [cmd_plex_create_pin])
      | true =>
        cases body with
        | none => exact absurd hout (by simp [cmd_plex_create_pin])
        | some j =>
          refine ⟨rfl, j, rfl, ?_⟩
          cases hid : ((unwrap_pin j).get "id").bind Json.asI64 with
          | none =>
            rw [cmd_plex_create_pin] at hout
            simp only [if_true, hid] at hout
            exact absurd hout (by simp)
          | some id => rfl
    · rintro ⟨hst, j, hbody, hsome⟩
      subst hst
      subst hbody
      obtain ⟨id, hid⟩ := Option.isSome_iff_exists.mp hsome
      refine ⟨⟨id, (((unwrap_pin j).get "code").bind Json.asStr).getD "",
        (parseRFC3339 ((((unwrap_pin j).get "expires_at").bind Json.asStr).getD "")).getD 0,
        genClientId rand⟩, ?_⟩
      rw [cmd_plex_create_pin]
      simp only [if_true, hid]
  · intro j id hst hbody hid hcode hexp
    subst hst
    subst hbody
    have hp : (parseRFC3339 "").getD 0 = 0 := rfl
    rw [cmd_plex_create_pin]
    simp [hid, hcode, hexp, hp]

/-- Witness for create_pin_error_conditions: the defaulting branch at an
id-only body. -/
theorem create_pin_error_conditions_witness :
    cmd_plex_create_pin (fun _ => 1) true (some (.obj [("id", .num 7)]))
      = .ok ⟨7, "", 0, genClientId (fun _ => 1)⟩ :=
  (create_pin_error_conditions (fun _ => 1) true (some (.obj [("id", .num 7)]))).2
    (.obj [("id", .num 7)]) 7 rfl rfl rfl rfl rfl

/-- Claim C7 counterexample: the identifier generated from the all-zero
sample stream is "AAAAAAAAAAAA", which is not lower-case alphanumeric,
contradicting the claim that every generated identifier is. -/
theorem gen_client_id_lowercase_cex :
    genClientId (fun _ => 0) = "AAAAAAAAAAAA"
    ∧ ((genClientId (fun _ => 0)).data.all (fun c => c.isLower || c.isDigit)) = false := by
  constructor
  · decide
  · decide

/-- Claim C7 (amended): every generated client identifier has length
exactly 12 (hence at least 10), draws every character from the mixed-case
alphanumeric alphabet of rand's Alphanumeric distribution, and is carried
verbatim in the X-Plex-Client-Identifier header of the request. -/
theorem gen_client_id_spec (rand : Nat → Nat) :
    (genClientId rand).length = 12
    ∧ 10 ≤ (genClientId rand).length
    ∧ (∀ c ∈ (genClientId rand).data, c ∈ alphanumericChars)
    ∧ headerLookup (plex_headers (genClientId rand)) "X-Plex-Client-Identifier"
        = some (genClientId rand) := by
  have hlen : (genClientId rand).length = 12 := by
    show ((List.range 12).map (fun i => alphanumericChars.getD (rand i % 62) 'A')).length = 12
    simp
  have hmem : ∀ c ∈ (genClientId rand).data, c ∈ alphanumericChars := by
    intro c hc
    have hc2 : c ∈ (List.range 12).map (fun i => alphanumericChars.getD (rand i % 62) 'A') := hc
    rw [List.mem_map] at hc2
    obtain ⟨i, _, rfl⟩ := hc2
    exact alnum_getD_mem _ (Nat.mod_lt _ (by decide))
  have hvalid : isValidHeaderValue (genClientId rand) = true := by
    rw [isValidHeaderValue, List.all_eq_true]
    intro c hc
    have hc2 : c ∈ (List.range 12).map (fun i => alphanumericChars.getD (rand i % 62) 'A') := hc
    rw [List.mem_map] at hc2
    obtain ⟨i, _, rfl⟩ := hc2
    exact alnum_valid _ (Nat.mod_lt _ (by decide))
  refine ⟨hlen, by rw [hlen]; decide, hmem, ?_⟩
  simp [plex_headers, headerLookup, hvalid]

/-- Witness for gen_client_id_spec at the all-zero sample stream. -/
theorem gen_client_id_spec_witness :
    (genClientId (fun _ => 0)).length = 12
    ∧ headerLookup (plex_headers (genClientId (fun _ => 0))) "X-Plex-Client-Identifier"
        = some (genClientId (fun _ => 0)) :=
  ⟨(gen_client_id_spec (fun _ => 0)).1, (gen_client_id_spec (fun _ => 0)).2.2.2⟩

/-- Claim C9: cmd_simkl_poll_pin never touches the credential document, a
non-JSON body resolves to the all-absent default result rather than an
error, and so does any JSON body carrying none of the five token fields. -/
theorem simkl_poll_pin_empty_no_write :
    (∀ (fs : FS) (body : Option Json), (cmd_simkl_poll_pin fs body).1 = fs)
    ∧ (∀ fs : FS, (cmd_simkl_poll_pin fs none).2 = ({} : SimklTokenResp))
    ∧ (∀ (fs : FS) (j : Json),
        j.get "access_token" = none → j.get "refresh_token" = none →
        j.get "expires_in" = none → j.get "token_type" = none → j.get "result" = none →
        (cmd_simkl_poll_pin fs (some j)).2 = ({} : SimklTokenResp)) := by
  refine ⟨fun fs body => rfl, fun fs => rfl, ?_⟩
  intro fs j h1 h2 h3 h4 h5
  cases j with
  | obj fields =>
    simp only [Json.get] at h1 h2 h3 h4 h5
    simp [cmd_simkl_poll_pin, SimklTokenResp.fromJson, h1, h2, h3, h4, h5,
      fieldOptStr, fieldOptInt]
  | null => rfl
  | bool b => rfl
  | num n => rfl
  | str s => rfl
  | arr xs => rfl

/-- Witness for simkl_poll_pin_empty_no_write at the empty JSON object. -/
theorem simkl_poll_pin_empty_no_write_witness :
    (cmd_simkl_poll_pin [] (some (.obj []))).2 = ({} : SimklTokenResp) :=
  simkl_poll_pin_empty_no_write.2.2 [] (.obj []) rfl rfl rfl rfl rfl

/-- Claim C10: for a body without its own "pin" key, the pin-wrapped form
and the flat form are handled identically by both the create and the poll
command. -/
theorem unwrap_pin_equiv (x : Json) (rand : Nat → Nat) (fs : FS) (h : x.get "pin" = none) :
    cmd_plex_create_pin rand true (some (.obj [("pin", x)]))
      = cmd_plex_create_pin rand true (some x)
    ∧ cmd_plex_poll_pin fs true (some (.obj [("pin", x)]))
      = cmd_plex_poll_pin fs true (some x) := by
  have hu : unwrap_pin (.obj [("pin", x)]) = x := rfl
  have hx : unwrap_pin x = x := by
    rw [unwrap_pin, h]
  constructor
  · simp only [cmd_plex_create_pin, hu, hx]
  · simp only [cmd_plex_poll_pin, hu, hx]

/-- Witness for unwrap_pin_equiv: wrapped and flat authToken responses give
the same poll result. -/
theorem unwrap_pin_equiv_witness :
    cmd_plex_poll_pin [] true (some (.obj [("pin", .obj [("authToken", .str "t")])]))
      = cmd_plex_poll_pin [] true (some (.obj [("authToken", .str "t")])) :=
  (unwrap_pin_equiv (.obj [("authToken", .str "t")]) (fun _ => 0) [] rfl).2

/-- Claim C3 counterexample: a document present only at the legacy path
"config.json" is loaded and copied to the canonical path, but the legacy
file is NOT removed — it still holds the document after load — so a legacy
location does remain as a second on-disk copy, contradicting the claim. -/
theorem legacy_file_left_in_place_cex :
    (read_cfg "config/config.json" [("config.json", Json.obj [])]).map
        (fun r => (r.1, fsLookup r.2 "config.json"))
      = .ok (({} : Config), some (Json.obj [])) := rfl

/-- Claim C3 (amended): when a document exists only at a legacy candidate
path, the first load copies its content to the canonical path, mirrors it
to the project-root "config.json", and returns the parsed content — but it
removes the legacy file only when its path contains "src-tauri"; the other
two legacy locations keep their copy. -/
theorem read_cfg_migration (cfgPath cand : String) (j : Json) (cfg : Config)
    (hcand : cand ∈ legacy_cfg_candidates) (hparse : Config.fromJson j = .ok cfg)
    (hpath : cfgPath ∉ legacy_cfg_candidates) :
    ∃ fs1, read_cfg cfgPath [(cand, j)] = .ok (cfg, fs1)
      ∧ fsLookup fs1 cfgPath = some j
      ∧ fsLookup fs1 "config.json" = some j
      ∧ fsLookup fs1 cand = (if containsSrcTauri cand = true then none else some j) := by
  have h1 : cfgPath ≠ "config.json" := by
    intro hh
    exact hpath (by rw [hh]; decide)
  have h2 : cfgPath ≠ "resources/config.json" := by
    intro hh
    exact hpath (by rw [hh]; decide)
  have h3 : cfgPath ≠ "src-tauri/resources/config.json" := by
    intro hh
    exact hpath (by rw [hh]; decide)
  have h1' : ¬("config.json" = cfgPath) := fun hh => h1 hh.symm
  have h2' : ¬("resources/config.json" = cfgPath) := fun hh => h2 hh.symm
  have h3' : ¬("src-tauri/resources/config.json" = cfgPath) := fun hh => h3 hh.symm
  fin_cases hcand
  · refine ⟨fsWrite (fsWrite [("config.json", j)] cfgPath j) "config.json" j,
      ?_, ?_, ?_, ?_⟩
    · simp [read_cfg, read_cfg_legacy, legacy_cfg_candidates, fsLookup, jGet, h1',
        hparse, containsSrcTauri_root, project_root_cfg]
    · rw [fsLookup_write_ne _ _ _ _ h1, fsLookup_write_self]
    · rw [fsLookup_write_self]
    · rw [containsSrcTauri_root]
      simp only [Bool.false_eq_true, if_false]
      rw [fsLookup_write_self]
  · refine ⟨fsWrite (fsWrite [("resources/config.json", j)] cfgPath j) "config.json" j,
      ?_, ?_, ?_, ?_⟩
    · simp [read_cfg, read_cfg_legacy, legacy_cfg_candidates, fsLookup, jGet, h1', h2',
        hparse, containsSrcTauri_res, project_root_cfg]
    · rw [fsLookup_write_ne _ _ _ _ h1, fsLookup_write_self]
    · rw [fsLookup_write_self]
    · rw [containsSrcTauri_res]
      simp only [Bool.false_eq_true, if_false]
      rw [fsLookup_write_ne _ _ _ _ (by decide : ("resources/config.json" : String) ≠ "config.json"),
        fsLookup_write_ne _ _ _ _ (fun hh => h2 hh.symm), fsLookup, jGet, if_pos rfl]
  · refine ⟨fsRemove
        (fsWrite (fsWrite [("src-tauri/resources/config.json", j)] cfgPath j) "config.json" j)
        "src-tauri/resources/config.json",
      ?_, ?_, ?_, ?_⟩
    · simp [read_cfg, read_cfg_legacy, legacy_cfg_candidates, fsLookup, jGet, h1', h2', h3',
        hparse, containsSrcTauri_tauri, project_root_cfg]
    · rw [fsLookup_remove_ne _ _ _ h3, fsLookup_write_ne _ _ _ _ h1, fsLookup_write_self]
    · rw [fsLookup_remove_ne _ _ _
          (by decide : ("config.json" : String) ≠ "src-tauri/resources/config.json"),
        fsLookup_write_self]
    · rw [containsSrcTauri_tauri]
      simp only [if_true]
      rw [fsLookup_remove_self]

/-- Witness for read_cfg_migration at the src-tauri legacy path. -/
theorem read_cfg_migration_witness :
    ∃ fs1, read_cfg "config/config.json"
        [("src-tauri/resources/config.json", Json.obj [])] = .ok (({} : Config), fs1)
      ∧ fsLookup fs1 "config/config.json" = some (Json.obj [])
      ∧ fsLookup fs1 "config.json" = some (Json.obj [])
      ∧ fsLookup fs1 "src-tauri/resources/config.json"
          = (if containsSrcTauri "src-tauri/resources/config.json" = true
             then none else some (Json.obj [])) :=
  read_cfg_migration "config/config.json" "src-tauri/resources/config.json"
    (Json.obj []) {} (by decide) rfl (by decide)

/-- The JSON-level round trip of cmd_write_config followed by
cmd_read_config (main.rs lines 147-155): Tauri deserializes the incoming
document into Config, write_cfg persists it, read_cfg loads it back, and
the reply is serialized to JSON for the frontend. -/
def saveThenLoadDoc (cfgPath : String) (fs : FS) (j : Json) : Except String Json :=
  match Config.fromJson j with
  | .error e => .error e
  | .ok c =>
    match read_cfg cfgPath (write_cfg cfgPath fs c) with
    | .error e => .error e
    | .ok (c2, _) => .ok (Config.toJson c2)

/-- A document whose sync block carries a field unknown to the
implementation. -/
def unknownFieldDoc : Json :=
  .obj [("sync", .obj [("enable_add", .bool true), ("custom_extra", .num 1)])]

/-- Claim C4 counterexample: saving a document whose sync block carries the
unknown field custom_extra and loading it back drops that field while
keeping the known enable_add, so the save-then-load round trip is not the
identity on documents with unknown pass-through fields. -/
theorem unknown_fields_dropped_cex :
    ((saveThenLoadDoc "config/config.json" [] unknownFieldDoc).map
        (fun r => ((r.get "sync").bind (fun s => s.get "custom_extra"),
                   (r.get "sync").bind (fun s => s.get "enable_add"))))
      = .ok (none, some (.bool true))
    ∧ ((unknownFieldDoc.get "sync").bind (fun s => s.get "custom_extra")) = some (.num 1)
    ∧ saveThenLoadDoc "config/config.json" [] unknownFieldDoc ≠ .ok unknownFieldDoc := by
  refine ⟨rfl, rfl, fun h => ?_⟩
  have h1 : ((saveThenLoadDoc "config/config.json" [] unknownFieldDoc).map
      (fun r => ((r.get "sync").bind (fun s => s.get "custom_extra"),
                 (r.get "sync").bind (fun s => s.get "enable_add"))))
      = .ok (none, some (.bool true)) := rfl
  have h2 : ((saveThenLoadDoc "config/config.json" [] unknownFieldDoc).map
      (fun r => ((r.get "sync").bind (fun s => s.get "custom_extra"),
                 (r.get "sync").bind (fun s => s.get "enable_add"))))
      = .ok (some (.num 1), some (.bool true)) := by
    rw [h]
    rfl
  exact absurd (h1.symm.trans h2) (by simp)

/-- Claim C4 (amended): for every document representable in the Config data
model (all known fields, no unknown pass-through), load after save returns
exactly the saved document; unknown fields, as the counterexample shows,
are dropped rather than preserved. -/
theorem save_load_roundtrip (cfgPath : String) (fs : FS) (cfg : Config)
    (h : cfgPath ≠ "src-tauri/resources/config.json") :
    read_cfg cfgPath (write_cfg cfgPath fs cfg) = .ok (cfg, write_cfg cfgPath fs cfg) :=
  read_cfg_after_write_cfg cfgPath fs cfg h

/-- Witness for save_load_roundtrip at the default document and canonical
fallback path. -/
theorem save_load_roundtrip_witness :
    read_cfg "config/config.json" (write_cfg "config/config.json" [] ({} : Config))
      = .ok (({} : Config), write_cfg "config/config.json" [] ({} : Config)) :=
  save_load_roundtrip "config/config.json" [] {} (by decide)

/-- Claim C8: when the listener receives a request with a code, the stored
client credentials are present, and the exchange succeeds at time now with
expires_in seconds of validity, the listener persists access_token,
refresh_token and token_expires_at = now + expires_in into the simkl
section, preserving the client_id and client_secret already on record, and
emits success; the persisted document is what a subsequent load returns. -/
theorem simkl_exchange_persists (cfgPath : String) (now : Int) (tr : TokResp) (fs fs1 : FS)
    (rq : Request) (code : String) (cfg : Config) (sim : SimklCfg)
    (hpath : cfgPath ≠ "src-tauri/resources/config.json")
    (hp : rq.parseOk = true) (hc : extractCode rq = some code)
    (hread : read_cfg cfgPath fs = .ok (cfg, fs1))
    (hsim : cfg.simkl = some sim) (hid : sim.client_id ≠ "") (hsec : sim.client_secret ≠ "") :
    (cmd_simkl_start_listener cfgPath now (.ok tr) fs [rq]).emitOk = true
    ∧ read_cfg cfgPath (cmd_simkl_start_listener cfgPath now (.ok tr) fs [rq]).fs
        = .ok ({ cfg with simkl := some { sim with access_token := some tr.access_token,
                                                   refresh_token := some tr.refresh_token,
                                                   token_expires_at := some (now + tr.expires_in) } },
            (cmd_simkl_start_listener cfgPath now (.ok tr) fs [rq]).fs) := by
  have hsecond : read_cfg cfgPath fs1 = .ok (cfg, fs1) := read_cfg_idem cfgPath fs fs1 cfg hread
  have hcond : ¬(sim.client_id = "" ∨ sim.client_secret = "") := by
    rintro (hh | hh)
    exacts [hid hh, hsec hh]
  have hout : cmd_simkl_start_listener cfgPath now (.ok tr) fs [rq]
      = ⟨write_cfg cfgPath fs1
          { cfg with simkl := some { sim with access_token := some tr.access_token,
                                              refresh_token := some tr.refresh_token,
                                              token_expires_at := some (now + tr.expires_in) } },
         true, none, some code⟩ := by
    show handle_request cfgPath now (.ok tr) fs rq = _
    rw [handle_request]
    simp [hp, hc, hread, hsim, hsecond, hcond]
  rw [hout]
  exact ⟨rfl, read_cfg_after_write_cfg cfgPath fs1 _ hpath⟩

/-- Witness for simkl_exchange_persists: a concrete exchange at time 1000
with expires_in 3600 persists token_expires_at 4600 alongside the stored
client credentials. -/
theorem simkl_exchange_persists_witness :
    (cmd_simkl_start_listener "config/config.json" 1000 (.ok ⟨"at", "rt", 3600⟩)
        [("config/config.json",
          Config.toJson { simkl := some { client_id := "cid", client_secret := "sec" } })]
        [⟨true, "/callback", [("code", "abc123")]⟩]).emitOk = true
    ∧ read_cfg "config/config.json"
        (cmd_simkl_start_listener "config/config.json" 1000 (.ok ⟨"at", "rt", 3600⟩)
          [("config/config.json",
            Config.toJson { simkl := some { client_id := "cid", client_secret := "sec" } })]
          [⟨true, "/callback", [("code", "abc123")]⟩]).fs
      = .ok ({ simkl := some { client_id := "cid",
                               client_secret := "sec",
                               access_token := some "at",
                               refresh_token := some "rt",
                               token_expires_at := some 4600 } },
          (cmd_simkl_start_listener "config/config.json" 1000 (.ok ⟨"at", "rt", 3600⟩)
            [("config/config.json",
              Config.toJson { simkl := some { client_id := "cid", client_secret := "sec" } })]
            [⟨true, "/callback", [("code", "abc123")]⟩]).fs) :=
  simkl_exchange_persists "config/config.json" 1000 ⟨"at", "rt", 3600⟩
    [("config/config.json",
      Config.toJson { simkl := some { client_id := "cid", client_secret := "sec" } })]
    [("config/config.json",
      Config.toJson { simkl := some { client_id := "cid", client_secret := "sec" } })]
    ⟨true, "/callback", [("code", "abc123")]⟩ "abc123"
    { simkl := some { client_id := "cid", client_secret := "sec" } }
    { client_id := "cid", client_secret := "sec" }
    (by decide) rfl rfl rfl rfl (by decide) (by decide)

end CrossWatch
